import Mathlib

/-!
Verification development for the `sixDoFRigidBodyMotion` core of
RapidCFD-dev (`src/sixDoFRigidBodyMotion/sixDoFRigidBodyMotion/sixDoFRigidBodyMotion.H`).

The repository snapshot contains only the class declaration header; the
member-function bodies (`sixDoFRigidBodyMotionI.H`, `sixDoFRigidBodyMotion.C`,
`sixDoFRigidBodyMotionIO.C`) are not present.  Every operation below is
therefore a shallow embedding modelled from the design specification of the
integrator (symplectic splitting of free rigid-body rotation, leapfrog
predictor/corrector with constraint projection, geometric transforms),
with scalars taken as exact reals.
-/

noncomputable section

open Matrix

/-- A 3-vector of reals (OpenFOAM `vector` / `point`). -/
abbrev Vec3 := Fin 3 → ℝ

/-- A 3 by 3 real matrix (OpenFOAM `tensor`). -/
abbrev Mat3 := Matrix (Fin 3) (Fin 3) ℝ

/-- Cross product of two 3-vectors. -/
def cross3 (u w : Vec3) : Vec3 :=
  ![u 1 * w 2 - u 2 * w 1, u 2 * w 0 - u 0 * w 2, u 0 * w 1 - u 1 * w 0]

/-- Modelled from the spec: the `sixDoFRigidBodyMotionState` value type
(centre of rotation and velocity/acceleration in the global frame,
orientation `Q`, angular momentum `pi` and torque `tau` in the body frame);
its definition file is not in the snapshot. -/
structure sixDoFRigidBodyMotionState where
  centreOfRotation : Vec3
  Q : Mat3
  v : Vec3
  a : Vec3
  pi : Vec3
  tau : Vec3

/-- Modelled from the spec: a restraint evaluates to a (force, torque)
contribution as a pure function of the current motion state
(`sixDoFRigidBodyMotionRestraint` is not in the snapshot). -/
abbrev Restraint := sixDoFRigidBodyMotionState → Vec3 × Vec3

/-- Modelled from the spec: a constraint evaluates, from the current motion
state and the timestep, the restricted translational and rotational
directions (`sixDoFRigidBodyMotionConstraint` is not in the snapshot). -/
abbrev Constraint := sixDoFRigidBodyMotionState → ℝ → List Vec3 × List Vec3

/-- The `sixDoFRigidBodyMotion` object: current and previous motion state,
owned restraint and constraint lists, the translational and rotational
constraint projector tensors, the reference configuration, and the body
parameters, exactly the private data of the class declaration. -/
structure sixDoFRigidBodyMotion where
  motionState : sixDoFRigidBodyMotionState
  motionState0 : sixDoFRigidBodyMotionState
  restraints : List Restraint
  constraints : List Constraint
  tConstraints : Mat3
  rConstraints : Mat3
  initialCentreOfMass : Vec3
  initialCentreOfRotation : Vec3
  initialQ : Mat3
  mass : ℝ
  momentOfInertia : Vec3
  aRelax : ℝ
  aDamp : ℝ
  report : Bool

/-- Modelled from the spec: elementary rotation tensor about the body x-axis
by a given angle (standard Rodrigues matrix; `sixDoFRigidBodyMotionI.H` is
not in the snapshot). -/
def rotationTensorX (phi : ℝ) : Mat3 :=
  !![1, 0, 0; 0, Real.cos phi, -Real.sin phi; 0, Real.sin phi, Real.cos phi]

/-- Modelled from the spec: elementary rotation tensor about the body y-axis
by a given angle. -/
def rotationTensorY (phi : ℝ) : Mat3 :=
  !![Real.cos phi, 0, Real.sin phi; 0, 1, 0; -Real.sin phi, 0, Real.cos phi]

/-- Modelled from the spec: elementary rotation tensor about the body z-axis
by a given angle. -/
def rotationTensorZ (phi : ℝ) : Mat3 :=
  !![Real.cos phi, -Real.sin phi, 0; Real.sin phi, Real.cos phi, 0; 0, 0, 1]

/-- The elementary rotation tensor about body axis 0, 1 or 2 (x, y, z). -/
def rotationTensor : Fin 3 → ℝ → Mat3 :=
  ![rotationTensorX, rotationTensorY, rotationTensorZ]

/-- Modelled from the spec: one elementary sub-stage of the rotational
splitting.  Given the principal moments of inertia `I`, the rotation axis and
the sub-step duration `dur`, rotate the orientation by the angle
`dur * (pi_axis / I_axis)` about that body axis and re-express the
body-fixed angular momentum in the rotated frame (`pi * R`, i.e. the
transpose of `R` applied to `pi`). -/
def rotateStage (I : Vec3) (axis : Fin 3) (dur : ℝ) (Qp : Mat3 × Vec3) :
    Mat3 × Vec3 :=
  let R := rotationTensor axis (dur * (Qp.2 axis / I axis))
  (Qp.1 * R, Matrix.vecMul Qp.2 R)

/-- Modelled from the spec: the private `rotate` member.  Second-order Strang
splitting of free rigid-body rotation: half-step about body axis z, half-step
about y, full step about x, half-step about y, half-step about z, the angular
momentum being re-expressed in the rotated body frame after each elementary
rotation (`sixDoFRigidBodyMotionI.H` is not in the snapshot). -/
def rotate (m : sixDoFRigidBodyMotion) (Q0 : Mat3) (pi0 : Vec3)
    (deltaT : ℝ) : Mat3 × Vec3 :=
  rotateStage m.momentOfInertia 2 (deltaT / 2)
    (rotateStage m.momentOfInertia 1 (deltaT / 2)
      (rotateStage m.momentOfInertia 0 deltaT
        (rotateStage m.momentOfInertia 1 (deltaT / 2)
          (rotateStage m.momentOfInertia 2 (deltaT / 2) (Q0, pi0)))))

/-- Store the motion state at the beginning of the time-step. -/
def newTime (m : sixDoFRigidBodyMotion) : sixDoFRigidBodyMotion :=
  { m with motionState0 := m.motionState }

/-- Modelled from the spec: `updatePosition(deltaT, deltaT0)`, the predictor
half-step (`sixDoFRigidBodyMotion.C` is not in the snapshot).  Snapshot the
state via `newTime`, set the velocity to `v0 + a0*deltaT0/2`, advance the
centre of rotation by `velocity*deltaT`, advance orientation and angular
momentum via `rotate` with `deltaT`, then project the velocity through the
translational constraint tensor and the angular momentum through the
rotational constraint tensor. -/
def updatePosition (m : sixDoFRigidBodyMotion) (deltaT deltaT0 : ℝ) :
    sixDoFRigidBodyMotion :=
  let m1 := newTime m
  let vmid := m1.motionState0.v + (deltaT0 / 2) • m1.motionState0.a
  let Qpi := rotate m1 m1.motionState0.Q m1.motionState0.pi deltaT
  { m1 with
      motionState :=
        { m1.motionState with
            centreOfRotation := m1.motionState.centreOfRotation + deltaT • vmid
            Q := Qpi.1
            v := m1.tConstraints.mulVec vmid
            pi := m1.rConstraints.mulVec Qpi.2 } }

/-- Modelled from the spec: `applyRestraints`, summing the force and torque
contributions of every owned restraint at the current state. -/
def applyRestraints (m : sixDoFRigidBodyMotion) : Vec3 × Vec3 :=
  ((m.restraints.map fun r => (r m.motionState).1).sum,
   (m.restraints.map fun r => (r m.motionState).2).sum)

/-- Modelled from the spec: `updateAcceleration(fGlobal, tauGlobal, deltaT)`,
the corrector half-step (`sixDoFRigidBodyMotion.C` is not in the snapshot).
Sum the restraint contributions into the applied force and torque, relax and
damp the acceleration, relax the torque in the body frame, give the angular
momentum its full-step torque update and the velocity its remaining
half-step, then re-apply the constraint projectors. -/
def updateAcceleration (m : sixDoFRigidBodyMotion) (fGlobal tauGlobal : Vec3)
    (deltaT : ℝ) : sixDoFRigidBodyMotion :=
  let rfr := applyRestraints m
  let aNew := m.aRelax • (((1 : ℝ) / m.mass) • (fGlobal + rfr.1)) +
    (1 - m.aRelax) • m.motionState0.a - m.aDamp • m.motionState0.v
  let tauNew := m.aRelax • Matrix.mulVec (m.motionState.Q)ᵀ (tauGlobal + rfr.2) +
    (1 - m.aRelax) • m.motionState0.tau
  { m with
      motionState :=
        { m.motionState with
            a := aNew
            tau := tauNew
            pi := m.rConstraints.mulVec (m.motionState.pi + deltaT • tauNew)
            v := m.tConstraints.mulVec
              (m.motionState.v + (deltaT / 2) • aNew) } }

/-- Modelled from the spec: `transform(point)`, mapping a reference
configuration point to its current global position. -/
def transform (m : sixDoFRigidBodyMotion) (p : Vec3) : Vec3 :=
  m.motionState.centreOfRotation +
    m.motionState.Q.mulVec
      (Matrix.mulVec (m.initialQ)ᵀ (p - m.initialCentreOfRotation))

/-- Modelled from the spec: `omega()`, the angular velocity in the global
frame: the body-frame angular momentum divided elementwise by the principal
moments of inertia, rotated into the global frame by `Q`. -/
def omega (m : sixDoFRigidBodyMotion) : Vec3 :=
  m.motionState.Q.mulVec fun i => m.motionState.pi i / m.momentOfInertia i

/-- Modelled from the spec: `velocity(pt)`, the instantaneous velocity of a
material point at a global position. -/
def velocity (m : sixDoFRigidBodyMotion) (pt : Vec3) : Vec3 :=
  m.motionState.v + cross3 (omega m) (pt - m.motionState.centreOfRotation)

/-- Modelled from the spec: the batch `transform` overload on a point field,
applying the single-point transform to every element. -/
def transformField (m : sixDoFRigidBodyMotion) (pts : List Vec3) : List Vec3 :=
  pts.map (transform m)

/-- Modelled from the spec: the scaled batch `transform` overload, blending
each point between its untransformed and fully transformed position by the
per-point scale: `p + s * (transform p - p)`. -/
def transformFieldScaled (m : sixDoFRigidBodyMotion) (pts : List Vec3)
    (scale : List ℝ) : List Vec3 :=
  List.zipWith (fun p s => p + s • (transform m p - p)) pts scale

/-- One outer (force, torque, timestep) step driving an
`updatePosition`/`updateAcceleration` pair. -/
structure Step where
  fGlobal : Vec3
  tauGlobal : Vec3
  deltaT : ℝ
  deltaT0 : ℝ

/-- One `updatePosition`/`updateAcceleration` pair, as invoked by the outer
solver once per global timestep. -/
def pairStep (m : sixDoFRigidBodyMotion) (s : Step) : sixDoFRigidBodyMotion :=
  updateAcceleration (updatePosition m s.deltaT s.deltaT0)
    s.fGlobal s.tauGlobal s.deltaT

/-- Drive the body through a finite sequence of
`updatePosition`/`updateAcceleration` pairs. -/
def runSteps (m : sixDoFRigidBodyMotion) (l : List Step) :
    sixDoFRigidBodyMotion :=
  l.foldl pairStep m

/-- The proper-rotation invariant of an orientation tensor. -/
def proper (M : Mat3) : Prop := Mᵀ * M = 1 ∧ M.det = 1

/-- C1: for every previous orientation, previous body-frame angular momentum
and timestep, `rotate` performs exactly the second-order Strang splitting of
free rigid-body rotation in stage order z-half, y-half, x-full, y-half,
z-half, where the rotation angle about axis i is `(pi_i / I_i)` times the
sub-step duration and the angular momentum is re-expressed in the rotated
body frame (multiplication by the transpose of the stage rotation) after
each elementary rotation. -/
theorem rotate_strang_splitting (m : sixDoFRigidBodyMotion) (Q0 : Mat3)
    (pi0 : Vec3) (deltaT : ℝ) :
    rotate m Q0 pi0 deltaT =
      let I := m.momentOfInertia
      let R1 := rotationTensorZ ((deltaT / 2) * (pi0 2 / I 2))
      let p1 := Matrix.vecMul pi0 R1
      let R2 := rotationTensorY ((deltaT / 2) * (p1 1 / I 1))
      let p2 := Matrix.vecMul p1 R2
      let R3 := rotationTensorX (deltaT * (p2 0 / I 0))
      let p3 := Matrix.vecMul p2 R3
      let R4 := rotationTensorY ((deltaT / 2) * (p3 1 / I 1))
      let p4 := Matrix.vecMul p3 R4
      let R5 := rotationTensorZ ((deltaT / 2) * (p4 2 / I 2))
      (Q0 * R1 * R2 * R3 * R4 * R5, Matrix.vecMul p4 R5) := rfl

/-- C2: `updatePosition(deltaT, deltaT0)` snapshots the current state into
the previous slot, sets the velocity to `v0 + a0*deltaT0/2`, advances the
centre of rotation by `velocity*deltaT`, updates orientation and angular
momentum via the `rotate` splitting with `deltaT`, and projects the velocity
through the translational constraint tensor and the angular momentum through
the rotational constraint tensor; acceleration and torque are untouched. -/
theorem updatePosition_spec (m : sixDoFRigidBodyMotion) (deltaT deltaT0 : ℝ) :
    updatePosition m deltaT deltaT0 =
      { m with
          motionState0 := m.motionState
          motionState :=
            { centreOfRotation := m.motionState.centreOfRotation +
                deltaT • (m.motionState.v + (deltaT0 / 2) • m.motionState.a)
              Q := (rotate m m.motionState.Q m.motionState.pi deltaT).1
              v := m.tConstraints.mulVec
                (m.motionState.v + (deltaT0 / 2) • m.motionState.a)
              a := m.motionState.a
              pi := m.rConstraints.mulVec
                (rotate m m.motionState.Q m.motionState.pi deltaT).2
              tau := m.motionState.tau } } := rfl

/-- C3: `updateAcceleration(fGlobal, tauGlobal, deltaT)` sums the owned
restraint contributions into the applied force and torque, sets the
acceleration to `aRelax*((fGlobal + restraintForce)/mass)
+ (1 - aRelax)*a0 - aDamp*v0` (so the damping term vanishes exactly when
`aDamp = 0`), relaxes the torque analogously in the body frame, updates the
angular momentum by `pi + tau*deltaT`, the velocity by `v + a*deltaT/2`, and
re-applies the two constraint projectors. -/
theorem updateAcceleration_spec (m : sixDoFRigidBodyMotion)
    (fGlobal tauGlobal : Vec3) (deltaT : ℝ) :
    updateAcceleration m fGlobal tauGlobal deltaT =
      let rForce := (m.restraints.map fun r => (r m.motionState).1).sum
      let rTorque := (m.restraints.map fun r => (r m.motionState).2).sum
      let aN := m.aRelax • (((1 : ℝ) / m.mass) • (fGlobal + rForce)) +
        (1 - m.aRelax) • m.motionState0.a - m.aDamp • m.motionState0.v
      let tauN := m.aRelax • Matrix.mulVec (m.motionState.Q)ᵀ
          (tauGlobal + rTorque) + (1 - m.aRelax) • m.motionState0.tau
      { m with
          motionState :=
            { centreOfRotation := m.motionState.centreOfRotation
              Q := m.motionState.Q
              v := m.tConstraints.mulVec
                (m.motionState.v + (deltaT / 2) • aN)
              a := aN
              pi := m.rConstraints.mulVec
                (m.motionState.pi + deltaT • tauN)
              tau := tauN } } := rfl

/-- C5: `transform` maps a reference-configuration point `p` to
`centreOfRotation + Q * Qrefᵀ * (p - centreOfRotationRef)`, and in
particular it maps the initial centre of rotation exactly onto the current
centre of rotation, whatever the current motion state is. -/
theorem transform_spec (m : sixDoFRigidBodyMotion) :
    (∀ p, transform m p =
        m.motionState.centreOfRotation +
          m.motionState.Q.mulVec
            (Matrix.mulVec (m.initialQ)ᵀ (p - m.initialCentreOfRotation))) ∧
      transform m m.initialCentreOfRotation =
        m.motionState.centreOfRotation := by
  refine ⟨fun p => rfl, ?_⟩
  simp [transform]

/-- C7: `velocity(pt)` returns `v + omega × (pt - centreOfRotation)` where
`omega` is the body-frame angular momentum divided elementwise by the
principal moments of inertia and rotated into the global frame by `Q`. -/
theorem velocity_spec (m : sixDoFRigidBodyMotion) (pt : Vec3) :
    velocity m pt =
      m.motionState.v +
        cross3
          (m.motionState.Q.mulVec
            fun i => m.motionState.pi i / m.momentOfInertia i)
          (pt - m.motionState.centreOfRotation) := rfl

lemma rotX_transpose (phi : ℝ) : (rotationTensorX phi)ᵀ =
    !![1, 0, 0; 0, Real.cos phi, Real.sin phi;
       0, -Real.sin phi, Real.cos phi] := by
  ext i j
  fin_cases i <;> fin_cases j <;> rfl

lemma rotY_transpose (phi : ℝ) : (rotationTensorY phi)ᵀ =
    !![Real.cos phi, 0, -Real.sin phi; 0, 1, 0;
       Real.sin phi, 0, Real.cos phi] := by
  ext i j
  fin_cases i <;> fin_cases j <;> rfl

lemma rotZ_transpose (phi : ℝ) : (rotationTensorZ phi)ᵀ =
    !![Real.cos phi, Real.sin phi, 0; -Real.sin phi, Real.cos phi, 0;
       0, 0, 1] := by
  ext i j
  fin_cases i <;> fin_cases j <;> rfl

lemma rotX_orth (phi : ℝ) : (rotationTensorX phi)ᵀ * rotationTensorX phi = 1 := by
  rw [rotX_transpose, rotationTensorX, Matrix.mul_fin_three, Matrix.one_fin_three]
  ext i j
  fin_cases i <;> fin_cases j <;>
    simp [Matrix.vecHead, Matrix.vecTail] <;>
    nlinarith [Real.sin_sq_add_cos_sq phi]

lemma rotY_orth (phi : ℝ) : (rotationTensorY phi)ᵀ * rotationTensorY phi = 1 := by
  rw [rotY_transpose, rotationTensorY, Matrix.mul_fin_three, Matrix.one_fin_three]
  ext i j
  fin_cases i <;> fin_cases j <;>
    simp [Matrix.vecHead, Matrix.vecTail] <;>
    nlinarith [Real.sin_sq_add_cos_sq phi]

lemma rotZ_orth (phi : ℝ) : (rotationTensorZ phi)ᵀ * rotationTensorZ phi = 1 := by
  rw [rotZ_transpose, rotationTensorZ, Matrix.mul_fin_three, Matrix.one_fin_three]
  ext i j
  fin_cases i <;> fin_cases j <;>
    simp [Matrix.vecHead, Matrix.vecTail] <;>
    nlinarith [Real.sin_sq_add_cos_sq phi]

lemma rotX_det (phi : ℝ) : (rotationTensorX phi).det = 1 := by
  rw [rotationTensorX, Matrix.det_fin_three]
  simp
  nlinarith [Real.sin_sq_add_cos_sq phi]

lemma rotY_det (phi : ℝ) : (rotationTensorY phi).det = 1 := by
  rw [rotationTensorY, Matrix.det_fin_three]
  simp
  nlinarith [Real.sin_sq_add_cos_sq phi]

lemma rotZ_det (phi : ℝ) : (rotationTensorZ phi).det = 1 := by
  rw [rotationTensorZ, Matrix.det_fin_three]
  simp
  nlinarith [Real.sin_sq_add_cos_sq phi]

/-- Every elementary rotation tensor is a proper rotation. -/
lemma rotationTensor_proper (axis : Fin 3) (phi : ℝ) :
    proper (rotationTensor axis phi) := by
  fin_cases axis
  · exact ⟨rotX_orth phi, rotX_det phi⟩
  · exact ⟨rotY_orth phi, rotY_det phi⟩
  · exact ⟨rotZ_orth phi, rotZ_det phi⟩

/-- An elementary splitting stage preserves the proper-rotation invariant of
the orientation. -/
lemma rotateStage_proper (I : Vec3) (axis : Fin 3) (dur : ℝ)
    (Qp : Mat3 × Vec3) (h : proper Qp.1) :
    proper (rotateStage I axis dur Qp).1 := by
  obtain ⟨h1, h2⟩ := h
  obtain ⟨hR1, hR2⟩ :=
    rotationTensor_proper axis (dur * (Qp.2 axis / I axis))
  constructor
  · show (Qp.1 * _)ᵀ * (Qp.1 * _) = 1
    rw [Matrix.transpose_mul, Matrix.mul_assoc, ← Matrix.mul_assoc (Qp.1)ᵀ,
      h1, Matrix.one_mul, hR1]
  · show (Qp.1 * _).det = 1
    rw [Matrix.det_mul, h2, hR2, mul_one]

/-- The full `rotate` splitting preserves the proper-rotation invariant. -/
lemma rotate_proper (m : sixDoFRigidBodyMotion) (Q0 : Mat3) (pi0 : Vec3)
    (deltaT : ℝ) (h : proper Q0) :
    proper (rotate m Q0 pi0 deltaT).1 := by
  exact rotateStage_proper _ _ _ _
    (rotateStage_proper _ _ _ _
      (rotateStage_proper _ _ _ _
        (rotateStage_proper _ _ _ _
          (rotateStage_proper _ _ _ _ h))))

lemma updatePosition_proper (m : sixDoFRigidBodyMotion) (deltaT deltaT0 : ℝ)
    (h : proper m.motionState.Q) :
    proper (updatePosition m deltaT deltaT0).motionState.Q :=
  rotate_proper _ _ _ _ h

lemma updateAcceleration_Q (m : sixDoFRigidBodyMotion)
    (fGlobal tauGlobal : Vec3) (deltaT : ℝ) :
    (updateAcceleration m fGlobal tauGlobal deltaT).motionState.Q =
      m.motionState.Q := rfl

lemma pairStep_proper (m : sixDoFRigidBodyMotion) (s : Step)
    (h : proper m.motionState.Q) : proper (pairStep m s).motionState.Q := by
  rw [pairStep, updateAcceleration_Q]
  exact updatePosition_proper _ _ _ h

/-- C4: for every configuration whose orientation is initially a proper
rotation and every finite sequence of `updatePosition`/`updateAcceleration`
pairs, the orientation tensor remains a proper rotation (transpose times
itself is the identity and its determinant is one) after every pair. -/
theorem orthonormality_invariant (m : sixDoFRigidBodyMotion)
    (h : proper m.motionState.Q) (l : List Step) :
    proper (runSteps m l).motionState.Q := by
  induction l generalizing m with
  | nil => exact h
  | cons s rest ih => exact ih (pairStep m s) (pairStep_proper m s h)

/-- The rest state: centre of rotation at the origin, identity orientation,
zero velocity, acceleration, angular momentum and torque. -/
def restState : sixDoFRigidBodyMotionState :=
  { centreOfRotation := 0, Q := 1, v := 0, a := 0, pi := 0, tau := 0 }

/-- The translational projector that zeroes the x-direction. -/
def xFixProjector : Mat3 := !![0, 0, 0; 0, 1, 0; 0, 0, 1]

/-- A concrete unconstrained unit body at rest, used as a witness
configuration. -/
def unitBody : sixDoFRigidBodyMotion :=
  { motionState := restState
    motionState0 := restState
    restraints := []
    constraints := []
    tConstraints := 1
    rConstraints := 1
    initialCentreOfMass := 0
    initialCentreOfRotation := 0
    initialQ := 1
    mass := 1
    momentOfInertia := ![1, 1, 1]
    aRelax := 1
    aDamp := 0
    report := false }

/-- Witness for C4: the invariant holds on a concrete body whose initial
orientation is the identity, over a concrete one-pair sequence. -/
theorem orthonormality_invariant_witness :
    proper (runSteps unitBody
      [{ fGlobal := ![1, 0, 0], tauGlobal := ![0, 0, 1],
         deltaT := 1, deltaT0 := 1 }]).motionState.Q :=
  orthonormality_invariant unitBody
    (by constructor <;> simp [unitBody, restState]) _

/-- The observable part of a trajectory point: centre of rotation,
orientation, velocity and angular momentum. -/
def observe (m : sixDoFRigidBodyMotion) : Vec3 × Mat3 × Vec3 × Vec3 :=
  (m.motionState.centreOfRotation, m.motionState.Q,
   m.motionState.v, m.motionState.pi)

/-- The observable trajectory of a body driven through a sequence of
`updatePosition`/`updateAcceleration` pairs: the observation after every
step, the initial state included. -/
def trajectory (m : sixDoFRigidBodyMotion) (l : List Step) :
    List (Vec3 × Mat3 × Vec3 × Vec3) :=
  (List.scanl pairStep m l).map observe

/-- C9: two independently constructed bodies with identical configuration
and state, driven by an identical sequence of
(force, torque, timestep) `updatePosition`/`updateAcceleration` calls,
produce identical trajectories: equal centre of rotation, orientation,
velocity and angular momentum after every step. -/
theorem determinism (m1 m2 : sixDoFRigidBodyMotion) (l1 l2 : List Step)
    (hm : m1 = m2) (hl : l1 = l2) :
    trajectory m1 l1 = trajectory m2 l2 := by
  rw [hm, hl]

/-- Witness for C9: two equal concrete bodies driven by the same concrete
one-step sequence. -/
theorem determinism_witness :
    trajectory unitBody
        [{ fGlobal := ![0, 0, -1], tauGlobal := 0, deltaT := 1, deltaT0 := 1 }] =
      trajectory unitBody
        [{ fGlobal := ![0, 0, -1], tauGlobal := 0, deltaT := 1, deltaT0 := 1 }] :=
  determinism _ _ _ _ rfl rfl

lemma zipWith_getElem? {α β γ : Type} (f : α → β → γ) (as : List α)
    (bs : List β) (i : ℕ) (a : α) (b : β) (ha : as[i]? = some a)
    (hb : bs[i]? = some b) : (List.zipWith f as bs)[i]? = some (f a b) := by
  induction as generalizing bs i with
  | nil => simp at ha
  | cons x xs ih =>
    cases bs with
    | nil => simp at hb
    | cons y ys =>
      cases i with
      | zero =>
        simp at ha hb
        simp [ha, hb]
      | succ n =>
        simp at ha hb
        simpa using ih ys n ha hb

lemma transformFieldScaled_zero (m : sixDoFRigidBodyMotion)
    (pts : List Vec3) :
    transformFieldScaled m pts (List.replicate pts.length 0) = pts := by
  induction pts with
  | nil => rfl
  | cons q qs ih =>
    simp only [transformFieldScaled, List.length_cons, List.replicate_succ,
      List.zipWith_cons_cons, zero_smul, add_zero] at *
    rw [ih]

lemma transformFieldScaled_one (m : sixDoFRigidBodyMotion)
    (pts : List Vec3) :
    transformFieldScaled m pts (List.replicate pts.length 1) =
      transformField m pts := by
  induction pts with
  | nil => rfl
  | cons q qs ih =>
    simp only [transformFieldScaled, transformField, List.length_cons,
      List.replicate_succ, List.zipWith_cons_cons, List.map_cons,
      one_smul, add_sub_cancel] at *
    rw [ih]

/-- C10: the batch `transform` overload agrees elementwise with the
single-point `transform`; the scaled overload returns, at each index, the
blend `p + s * (transform p - p)` of the point with its transform, so a zero
scale field returns every point unchanged and a unit scale field reproduces
the unscaled batch transform. -/
theorem transformField_spec (m : sixDoFRigidBodyMotion) (pts : List Vec3)
    (scale : List ℝ) (i : ℕ) (p : Vec3) (s : ℝ)
    (hp : pts[i]? = some p) (hs : scale[i]? = some s) :
    (transformField m pts)[i]? = some (transform m p) ∧
      (transformFieldScaled m pts scale)[i]? =
        some (p + s • (transform m p - p)) ∧
      transformFieldScaled m pts (List.replicate pts.length 0) = pts ∧
      transformFieldScaled m pts (List.replicate pts.length 1) =
        transformField m pts := by
  refine ⟨?_, ?_, transformFieldScaled_zero m pts,
    transformFieldScaled_one m pts⟩
  · rw [transformField, List.getElem?_map, hp]
    rfl
  · exact zipWith_getElem? _ pts scale i p s hp hs

/-- Witness for C10: a singleton point field with a singleton unit scale
field at index zero. -/
theorem transformField_spec_witness :
    (transformField unitBody [0])[0]? = some (transform unitBody 0) ∧
      (transformFieldScaled unitBody [0] [(1 : ℝ)])[0]? =
        some (0 + (1 : ℝ) • (transform unitBody 0 - 0)) ∧
      transformFieldScaled unitBody [0]
          (List.replicate (List.length [(0 : Vec3)]) 0) = [0] ∧
      transformFieldScaled unitBody [0]
          (List.replicate (List.length [(0 : Vec3)]) 1) =
        transformField unitBody [0] :=
  transformField_spec unitBody [0] [(1 : ℝ)] 0 0 1 rfl rfl

lemma updatePosition_centre (m : sixDoFRigidBodyMotion) (deltaT deltaT0 : ℝ) :
    (updatePosition m deltaT deltaT0).motionState.centreOfRotation =
      m.motionState.centreOfRotation +
        deltaT • (m.motionState.v + (deltaT0 / 2) • m.motionState.a) := rfl

lemma updatePosition_v (m : sixDoFRigidBodyMotion) (deltaT deltaT0 : ℝ) :
    (updatePosition m deltaT deltaT0).motionState.v =
      m.tConstraints.mulVec
        (m.motionState.v + (deltaT0 / 2) • m.motionState.a) := rfl

lemma updatePosition_a (m : sixDoFRigidBodyMotion) (deltaT deltaT0 : ℝ) :
    (updatePosition m deltaT deltaT0).motionState.a = m.motionState.a := rfl

lemma updatePosition_state0 (m : sixDoFRigidBodyMotion) (deltaT deltaT0 : ℝ) :
    (updatePosition m deltaT deltaT0).motionState0 = m.motionState := rfl

lemma updatePosition_tConstraints (m : sixDoFRigidBodyMotion)
    (deltaT deltaT0 : ℝ) :
    (updatePosition m deltaT deltaT0).tConstraints = m.tConstraints := rfl

lemma updatePosition_restraints (m : sixDoFRigidBodyMotion)
    (deltaT deltaT0 : ℝ) :
    (updatePosition m deltaT deltaT0).restraints = m.restraints := rfl

lemma updatePosition_aRelax (m : sixDoFRigidBodyMotion) (deltaT deltaT0 : ℝ) :
    (updatePosition m deltaT deltaT0).aRelax = m.aRelax := rfl

lemma updatePosition_aDamp (m : sixDoFRigidBodyMotion) (deltaT deltaT0 : ℝ) :
    (updatePosition m deltaT deltaT0).aDamp = m.aDamp := rfl

lemma updatePosition_mass (m : sixDoFRigidBodyMotion) (deltaT deltaT0 : ℝ) :
    (updatePosition m deltaT deltaT0).mass = m.mass := rfl

lemma updateAcceleration_centre (m : sixDoFRigidBodyMotion)
    (fGlobal tauGlobal : Vec3) (deltaT : ℝ) :
    (updateAcceleration m fGlobal tauGlobal deltaT).motionState.centreOfRotation =
      m.motionState.centreOfRotation := rfl

lemma updateAcceleration_a (m : sixDoFRigidBodyMotion)
    (fGlobal tauGlobal : Vec3) (deltaT : ℝ) :
    (updateAcceleration m fGlobal tauGlobal deltaT).motionState.a =
      m.aRelax • (((1 : ℝ) / m.mass) • (fGlobal + (applyRestraints m).1)) +
        (1 - m.aRelax) • m.motionState0.a - m.aDamp • m.motionState0.v := rfl

lemma updateAcceleration_v (m : sixDoFRigidBodyMotion)
    (fGlobal tauGlobal : Vec3) (deltaT : ℝ) :
    (updateAcceleration m fGlobal tauGlobal deltaT).motionState.v =
      m.tConstraints.mulVec (m.motionState.v + (deltaT / 2) •
        (m.aRelax • (((1 : ℝ) / m.mass) • (fGlobal + (applyRestraints m).1)) +
          (1 - m.aRelax) • m.motionState0.a -
            m.aDamp • m.motionState0.v)) := rfl

lemma pairStep_tConstraints (m : sixDoFRigidBodyMotion) (s : Step) :
    (pairStep m s).tConstraints = m.tConstraints := rfl

lemma pairStep_restraints (m : sixDoFRigidBodyMotion) (s : Step) :
    (pairStep m s).restraints = m.restraints := rfl

/-- The x-fixing projector annihilates the x-component of every vector. -/
lemma xFixProjector_mulVec (w : Vec3) : xFixProjector.mulVec w 0 = 0 := by
  simp [xFixProjector, Matrix.mulVec, dotProduct, Fin.sum_univ_three]

/-- A unit body carrying the x-fixing translational constraint projector. -/
def xfixBody : sixDoFRigidBodyMotion :=
  { unitBody with tConstraints := xFixProjector }

/-- The concrete driving sequence for the constraint-invariance
counterexample: one pair applying a pure x-force, then one force-free pair. -/
def cexSteps : List Step :=
  [{ fGlobal := ![1, 0, 0], tauGlobal := 0, deltaT := 1, deltaT0 := 1 },
   { fGlobal := 0, tauGlobal := 0, deltaT := 1, deltaT0 := 1 }]

/-- Counterexample to C6: with the translational constraint fixing the
x-direction, a force with nonzero x-component still moves the x-component of
the centre of rotation, because the position advance uses the velocity
before projection and the unprojected previous acceleration.  After the two
concrete pairs of `cexSteps` the x-component of the centre of rotation is
one half, away from its initial value zero. -/
theorem constraint_invariance_counterexample :
    (runSteps xfixBody cexSteps).motionState.centreOfRotation 0 ≠
      xfixBody.motionState.centreOfRotation 0 := by
  have h2 : runSteps xfixBody cexSteps =
      pairStep (pairStep xfixBody
        { fGlobal := ![1, 0, 0], tauGlobal := 0, deltaT := 1, deltaT0 := 1 })
        { fGlobal := 0, tauGlobal := 0, deltaT := 1, deltaT0 := 1 } := rfl
  have hm1v : (pairStep xfixBody
      { fGlobal := ![1, 0, 0], tauGlobal := 0, deltaT := 1, deltaT0 := 1 }
        ).motionState.v 0 = 0 := by
    rw [pairStep, updateAcceleration_v, updatePosition_tConstraints]
    exact xFixProjector_mulVec _
  have hm1a : (pairStep xfixBody
      { fGlobal := ![1, 0, 0], tauGlobal := 0, deltaT := 1, deltaT0 := 1 }
        ).motionState.a 0 = 1 := by
    rw [pairStep, updateAcceleration_a]
    simp [updatePosition_state0, updatePosition_restraints,
      updatePosition_aRelax, updatePosition_aDamp, updatePosition_mass,
      applyRestraints, xfixBody, unitBody, restState]
  have hm1c : (pairStep xfixBody
      { fGlobal := ![1, 0, 0], tauGlobal := 0, deltaT := 1, deltaT0 := 1 }
        ).motionState.centreOfRotation 0 = 0 := by
    rw [pairStep, updateAcceleration_centre, updatePosition_centre]
    simp [xfixBody, unitBody, restState]
  rw [h2, pairStep, updateAcceleration_centre, updatePosition_centre]
  simp only [Pi.add_apply, Pi.smul_apply, smul_eq_mul, hm1v, hm1a, hm1c]
  norm_num [xfixBody, unitBody, restState]

lemma applyRestraints_nil (m : sixDoFRigidBodyMotion)
    (h : m.restraints = []) : applyRestraints m = (0, 0) := by
  simp [applyRestraints, h]

lemma pairStep_xfix (m : sixDoFRigidBodyMotion) (s : Step)
    (hT : ∀ w, m.tConstraints.mulVec w 0 = 0)
    (hre : m.restraints = [])
    (hv : m.motionState.v 0 = 0) (ha : m.motionState.a 0 = 0)
    (hf : s.fGlobal 0 = 0) :
    (pairStep m s).motionState.centreOfRotation 0 =
        m.motionState.centreOfRotation 0 ∧
      (pairStep m s).motionState.v 0 = 0 ∧
      (pairStep m s).motionState.a 0 = 0 := by
  have hres : (updatePosition m s.deltaT s.deltaT0).restraints = [] := by
    rw [updatePosition_restraints]; exact hre
  refine ⟨?_, ?_, ?_⟩
  · rw [pairStep, updateAcceleration_centre, updatePosition_centre]
    simp [hv, ha]
  · rw [pairStep, updateAcceleration_v, updatePosition_tConstraints]
    exact hT _
  · rw [pairStep, updateAcceleration_a, applyRestraints_nil _ hres,
      updatePosition_state0, updatePosition_aRelax, updatePosition_aDamp,
      updatePosition_mass]
    simp [hv, ha, hf]

/-- C6 (amended): with a translational constraint projector that annihilates
the x-direction, no restraints, and an initial state whose velocity and
acceleration already have zero x-component, the x-components of the centre
of rotation and of the velocity stay at their initial values (the latter at
zero) after every `updatePosition`/`updateAcceleration` pair, provided every
applied force has zero x-component; a force with nonzero x-component can
move the constrained x-position, because the position advance uses the
pre-projection velocity and the unprojected previous acceleration. -/
theorem constraint_invariance_amended (m : sixDoFRigidBodyMotion)
    (hT : ∀ w, m.tConstraints.mulVec w 0 = 0)
    (hre : m.restraints = [])
    (hv : m.motionState.v 0 = 0) (ha : m.motionState.a 0 = 0)
    (l : List Step) (hf : ∀ s ∈ l, s.fGlobal 0 = 0) :
    (runSteps m l).motionState.centreOfRotation 0 =
        m.motionState.centreOfRotation 0 ∧
      (runSteps m l).motionState.v 0 = 0 ∧
      (runSteps m l).motionState.a 0 = 0 := by
  induction l generalizing m with
  | nil => exact ⟨rfl, hv, ha⟩
  | cons s rest ih =>
    obtain ⟨hc1, hv1, ha1⟩ :=
      pairStep_xfix m s hT hre hv ha (hf s (List.mem_cons_self s rest))
    have hT1 : ∀ w, (pairStep m s).tConstraints.mulVec w 0 = 0 := by
      intro w; rw [pairStep_tConstraints]; exact hT w
    have hre1 : (pairStep m s).restraints = [] := by
      rw [pairStep_restraints]; exact hre
    obtain ⟨ihc, ihv, iha⟩ := ih (pairStep m s) hT1 hre1 hv1 ha1
      fun t ht => hf t (List.mem_cons_of_mem s ht)
    exact ⟨by rw [runSteps, List.foldl_cons, ← runSteps, ihc, hc1],
      by rw [runSteps, List.foldl_cons, ← runSteps, ihv],
      by rw [runSteps, List.foldl_cons, ← runSteps, iha]⟩

/-- Witness for C6 (amended): the x-constrained unit body at rest driven by
one force-free pair. -/
theorem constraint_invariance_amended_witness :
    (runSteps xfixBody
        [{ fGlobal := 0, tauGlobal := 0, deltaT := 1, deltaT0 := 1 }]
          ).motionState.centreOfRotation 0 =
        xfixBody.motionState.centreOfRotation 0 ∧
      (runSteps xfixBody
        [{ fGlobal := 0, tauGlobal := 0, deltaT := 1, deltaT0 := 1 }]
          ).motionState.v 0 = 0 ∧
      (runSteps xfixBody
        [{ fGlobal := 0, tauGlobal := 0, deltaT := 1, deltaT0 := 1 }]
          ).motionState.a 0 = 0 :=
  constraint_invariance_amended xfixBody
    (fun w => xFixProjector_mulVec w) rfl rfl rfl _
    (by intro s hs; simp at hs; simp [hs])

/-- Configuration errors raised at construction or `read`: missing required
fields or non-positive mass/inertia. -/
inductive ConfigError where
  | missingMass : ConfigError
  | missingCentreOfMass : ConfigError
  | missingMomentOfInertia : ConfigError
  | nonPositiveMass : ConfigError
  | nonPositiveInertia : ConfigError
deriving DecidableEq

/-- Modelled from the spec: the configuration record consumed by `read`
(the `dictionary` parsing code is not in the snapshot).  Numeric literals of
a configuration file are represented as rationals; `mass`, `centreOfMass`
and `momentOfInertia` are required, the rest default (constraint tensors to
the identity, relaxation to one, damping to zero, reporting to off). -/
structure dictionary where
  mass : Option ℚ
  centreOfMass : Option (Fin 3 → ℚ)
  momentOfInertia : Option (ℚ × ℚ × ℚ)
  tConstraints : Option (Matrix (Fin 3) (Fin 3) ℚ)
  rConstraints : Option (Matrix (Fin 3) (Fin 3) ℚ)
  accelerationRelaxation : Option ℚ
  accelerationDamping : Option ℚ
  report : Option Bool
  restraints : List Restraint
  constraints : List Constraint

/-- Validation of a configuration record: the first configuration error, or
none when the record is admissible. -/
def readErr (d : dictionary) : Option ConfigError :=
  match d.mass with
  | none => some ConfigError.missingMass
  | some mq =>
    match d.centreOfMass with
    | none => some ConfigError.missingCentreOfMass
    | some _ =>
      match d.momentOfInertia with
      | none => some ConfigError.missingMomentOfInertia
      | some Iq =>
        if mq ≤ 0 then some ConfigError.nonPositiveMass
        else if Iq.1 ≤ 0 ∨ Iq.2.1 ≤ 0 ∨ Iq.2.2 ≤ 0 then
          some ConfigError.nonPositiveInertia
        else none

/-- The body parameters parsed from an admissible configuration record,
installed over an existing motion object; both motion-state slots are kept
untouched. -/
def applyDict (d : dictionary) (m : sixDoFRigidBodyMotion) :
    sixDoFRigidBodyMotion :=
  { m with
      restraints := d.restraints
      constraints := d.constraints
      tConstraints := (d.tConstraints.getD 1).map fun q => (q : ℝ)
      rConstraints := (d.rConstraints.getD 1).map fun q => (q : ℝ)
      mass := ((d.mass.getD 0 : ℚ) : ℝ)
      momentOfInertia :=
        ![(((d.momentOfInertia.getD (0, 0, 0)).1 : ℚ) : ℝ),
          (((d.momentOfInertia.getD (0, 0, 0)).2.1 : ℚ) : ℝ),
          (((d.momentOfInertia.getD (0, 0, 0)).2.2 : ℚ) : ℝ)]
      aRelax := ((d.accelerationRelaxation.getD 1 : ℚ) : ℝ)
      aDamp := ((d.accelerationDamping.getD 0 : ℚ) : ℝ)
      report := d.report.getD false }

/-- Modelled from the spec: `read`, re-parsing body parameters, constraint
tensors, relaxation/damping coefficients and the restraint/constraint lists
from a configuration record without touching the current motion state,
raising a `ConfigError` on missing required fields or non-positive
mass/inertia (`sixDoFRigidBodyMotionIO.C` is not in the snapshot). -/
def read (d : dictionary) (m : sixDoFRigidBodyMotion) :
    Except ConfigError sixDoFRigidBodyMotion :=
  match readErr d with
  | some e => Except.error e
  | none => Except.ok (applyDict d m)

/-- C8: `read` returns whether parsing succeeded; on success it installs the
re-parsed body parameters, constraint tensors, relaxation/damping
coefficients and restraint/constraint lists while leaving both motion-state
slots untouched, and it fails with a `ConfigError` — returning no partially
mutated object — whenever a required field is missing or the mass or an
inertia entry is non-positive. -/
theorem read_spec (d : dictionary) (m : sixDoFRigidBodyMotion) :
    (∀ r, read d m = Except.ok r →
        r.motionState = m.motionState ∧ r.motionState0 = m.motionState0 ∧
          r = applyDict d m) ∧
      ((d.mass = none ∨ d.centreOfMass = none ∨ d.momentOfInertia = none ∨
          (∃ q, d.mass = some q ∧ q ≤ 0) ∨
          (∃ t, d.momentOfInertia = some t ∧
            (t.1 ≤ 0 ∨ t.2.1 ≤ 0 ∨ t.2.2 ≤ 0))) →
        ∃ e, read d m = Except.error e) := by
  have read_eq : read d m = match readErr d with
      | some e => Except.error e
      | none => Except.ok (applyDict d m) := rfl
  constructor
  · intro r hr
    cases he : readErr d with
    | some e =>
      rw [read_eq, he] at hr
      exact absurd hr (by simp)
    | none =>
      rw [read_eq, he] at hr
      have : applyDict d m = r := by simpa using hr
      subst this
      exact ⟨rfl, rfl, rfl⟩
  · intro hbad
    rcases hm : d.mass with _ | mq
    · exact ⟨ConfigError.missingMass, by rw [read_eq]; simp [readErr, hm]⟩
    rcases hc : d.centreOfMass with _ | c
    · exact ⟨ConfigError.missingCentreOfMass,
        by rw [read_eq]; simp [readErr, hm, hc]⟩
    rcases hI : d.momentOfInertia with _ | Iq
    · exact ⟨ConfigError.missingMomentOfInertia,
        by rw [read_eq]; simp [readErr, hm, hc, hI]⟩
    rcases le_or_lt mq 0 with hq | hq
    · exact ⟨ConfigError.nonPositiveMass,
        by rw [read_eq]; simp [readErr, hm, hc, hI, hq]⟩
    have hIbad : Iq.1 ≤ 0 ∨ Iq.2.1 ≤ 0 ∨ Iq.2.2 ≤ 0 := by
      rcases hbad with h | h | h | ⟨q, hq', hq0⟩ | ⟨t, ht, ht0⟩
      · rw [hm] at h; exact absurd h (by simp)
      · rw [hc] at h; exact absurd h (by simp)
      · rw [hI] at h; exact absurd h (by simp)
      · rw [hm] at hq'
        injection hq' with h'
        subst h'
        exact absurd hq0 (not_le.mpr hq)
      · rw [hI] at ht
        injection ht with h'
        subst h'
        exact ht0
    exact ⟨ConfigError.nonPositiveInertia,
      by rw [read_eq]; simp [readErr, hm, hc, hI, not_le.mpr hq, hIbad]⟩

/-- A configuration record with every field absent, used as the `read`
witness input. -/
def emptyDict : dictionary :=
  { mass := none, centreOfMass := none, momentOfInertia := none,
    tConstraints := none, rConstraints := none,
    accelerationRelaxation := none, accelerationDamping := none,
    report := none, restraints := [], constraints := [] }

/-- Witness for C8: reading a record with the required mass field missing
fails with a configuration error. -/
theorem read_spec_witness : ∃ e, read emptyDict unitBody = Except.error e :=
  (read_spec emptyDict unitBody).2 (Or.inl rfl)
